import Mathlib

/-!
Verification of the typed object model and capability-dispatch layer of the
ruru embedding library (src/class/traits/object.rs and src/types.rs).

The layer represents runtime-managed values as opaque Handles, converts
between typed wrappers, and registers native callbacks as methods.  The
host runtime's primitives (class-of queries, method tables, dynamic call,
instance-variable slots) are external collaborators; where the claims need
them they are modelled from the specification's interface boundary and
marked as such.
-/

namespace Ruru

/-- Handle representation: an opaque, fixed-width, copyable token referencing a
runtime-managed object (the `Value` type re-exported in src/types.rs).
Modelled as a natural number; this layer never inspects its bits. -/
abbrev Value := Nat

/-- Generic handle wrapper (`AnyObject`): the universal, type-erased wrapper
holding exactly one Handle.  Its declaration lives outside src; it is the
conversion target of `to_any_object` and the element type of callback
argument arrays. -/
structure AnyObject where
  value : Value
deriving DecidableEq

/-- Capability trait from the source (`pub trait Object: From<Value>` with
`fn value(&self) -> Value`): bidirectional conversion to and from a Handle.
The round-trip law `value_fromValue` records the data-model invariant that a
typed wrapper holds exactly one Handle, stored by the conversion-from-Handle
operation and always recoverable by `value`. -/
class Object (T : Type) where
  fromValue : Value → T
  value : T → Value
  value_fromValue : ∀ v, value (fromValue v) = v

instance : Object AnyObject where
  fromValue := AnyObject.mk
  value := AnyObject.value
  value_fromValue := fun _ => rfl

/-- Modelled from the spec: the verification trait (`VerifiedObject`, declared
outside src).  A wrapper type opts into safe downcasting by implementing
`is_correct_type` -- a predicate checked against the runtime class of the
candidate's Handle, modelled here as a Boolean predicate on that Handle --
and a fixed human-readable `error_message`. -/
class VerifiedObject (T : Type) extends Object T where
  is_correct_type : Value → Bool
  error_message : String

/-- Modelled from the spec: the error taxonomy owned by this layer (the
`result` module is outside src).  TypeError is raised only by verified
conversion and carries the target type's fixed message. -/
inductive Error where
  | TypeError (msg : String)
deriving DecidableEq

/-- Result type of the layer's fallible operations. -/
abbrev Result (T : Type) := Except Error T

/-- Callback type from src/types.rs
(`pub type Callback<I, O> = ... fn(Argc, *const AnyObject, I) -> O`):
a fixed-signature native function taking the argument count, the contiguous
array of generic-wrapper argument handles (modelled as a list), and the
receiver, and returning one typed wrapper. -/
def Callback (I O : Type) : Type := Nat → List AnyObject → I → O

/-- Modelled from the spec: the uniform shape under which the host dispatcher
stores and invokes every registered callback -- argument count, argument
handle array, receiver handle in, result handle out. -/
def UCallback : Type := Nat → List Value → Value → Value

/-- Modelled from the spec: how a typed callback is presented to the host
dispatcher uniformly.  Argument handles are wrapped as generic wrappers, the
receiver wrapper is constructed from the receiver handle, and the Handle of
the returned typed wrapper is the call's result; this is possible exactly
because the argument and return types implement the capability trait. -/
def eraseCallback {I O : Type} [Object I] [Object O] (cb : Callback I O) : UCallback :=
  fun argc argv recv => Object.value (cb argc (argv.map AnyObject.mk) (Object.fromValue recv))

/-- Modelled from the spec: the host runtime's process-wide state at this
layer's interface boundary -- class-of queries, per-(class, dispatch-kind)
method tables, named instance-variable slots, and the absence singleton.
The runtime primitives this layer delegates to (the repository's
binding::class and binding::util modules) are outside src. -/
structure RuntimeState where
  classOf : Value → Value
  singletonClassOf : Value → Value
  instanceMethods : Value → String → Option UCallback
  singletonMethods : Value → String → Option UCallback
  ivars : Value → String → Option Value
  nilValue : Value

/-- Modelled from the spec: the method-table mutation primitive "define
instance method under name, class, callback" (binding::class::define_method).
Registers the callback under the (class, instance-dispatch) pair; an existing
registration under the same key is overwritten. -/
def RuntimeState.define_method_prim (s : RuntimeState) (klass : Value) (name : String)
    (cb : UCallback) : RuntimeState :=
  { s with instanceMethods := fun k n =>
      if k = klass ∧ n = name then some cb else s.instanceMethods k n }

/-- Modelled from the spec: the method-table mutation primitive "define
singleton method under name, object, callback"
(binding::class::define_singleton_method).  Registers the callback on the
receiver's singleton class, keyed here by the receiver's Handle. -/
def RuntimeState.define_singleton_method_prim (s : RuntimeState) (obj : Value) (name : String)
    (cb : UCallback) : RuntimeState :=
  { s with singletonMethods := fun k n =>
      if k = obj ∧ n = name then some cb else s.singletonMethods k n }

/-- Modelled from the spec: the runtime's method-resolution probe
(binding::class::respond_to): a name resolves on an object when it is
registered on the object's singleton class or on the object's class. -/
def RuntimeState.respond_to_prim (s : RuntimeState) (obj : Value) (m : String) : Bool :=
  (s.singletonMethods obj m).isSome || (s.instanceMethods (s.classOf obj) m).isSome

/-- Modelled from the spec: the dynamic call primitive
(binding::util::call_method): resolve the name against the receiver's
singleton methods, then against its class's instance methods, and invoke the
registered callback; an absent method is a host-level error, modelled as
`none` (the layer propagates it and never catches it). -/
def RuntimeState.call_method (s : RuntimeState) (recv : Value) (name : String)
    (argc : Nat) (argv : List Value) : Option Value :=
  match s.singletonMethods recv name with
  | some cb => some (cb argc argv recv)
  | none =>
    match s.instanceMethods (s.classOf recv) name with
    | some cb => some (cb argc argv recv)
    | none => none

/-- Modelled from the spec: the instance-slot primitive "set named slot on
handle" (binding::class::instance_variable_set); never fails and yields the
assigned handle back. -/
def RuntimeState.instance_variable_set_prim (s : RuntimeState) (obj : Value) (name : String)
    (v : Value) : RuntimeState × Value :=
  ({ s with ivars := fun o n => if o = obj ∧ n = name then some v else s.ivars o n }, v)

/-- Modelled from the spec: the instance-slot primitive "get named slot on
handle" (binding::class::instance_variable_get); an unset slot reads as the
absence singleton. -/
def RuntimeState.instance_variable_get_prim (s : RuntimeState) (obj : Value)
    (name : String) : Value :=
  (s.ivars obj name).getD s.nilValue

/-- Modelled from the spec: argument marshalling (util::create_arguments) --
the argument count together with the contiguous array of argument handles. -/
def create_arguments (arguments : List AnyObject) : Nat × List Value :=
  (arguments.length, arguments.map AnyObject.value)

/-- Unchecked conversion from the source (`Object::to`): reinterprets the
receiver's Handle as wrapper type `T`, with no runtime verification of any
kind -- its only requirements are the capability-trait operations, it calls
no verification predicate, and it is total (no error result). -/
def to' (T : Type) {S : Type} [Object T] [Object S] (self : S) : T :=
  Object.fromValue (Object.value self)

/-- Conversion to the generic wrapper from the source
(`Object::to_any_object`): `AnyObject::from(self.value())`. -/
def to_any_object {S : Type} [Object S] (self : S) : AnyObject :=
  AnyObject.mk (Object.value self)

/-- Verified conversion from the source (`Object::try_convert_to`): delegates
to `VerifiedObject::is_correct_type`; on success performs the same
reinterpretation as the unchecked path; on failure returns a TypeError
carrying the target type's registered message. -/
def try_convert_to (T : Type) {S : Type} [VerifiedObject T] [Object S] (self : S) : Result T :=
  if VerifiedObject.is_correct_type (T := T) (Object.value self) then
    Except.ok (to' T self)
  else
    Except.error (Error.TypeError (VerifiedObject.error_message (T := T)))

/-- Instance method definition from the source (`Object::define_method`):
delegates to the method-table mutation primitive at the receiver's Handle,
storing the callback in its uniform dispatcher shape.  The callback's
receiver and return types are required to implement the capability trait. -/
def define_method {S I O : Type} [Object S] [Object I] [Object O]
    (s : RuntimeState) (self : S) (name : String) (cb : Callback I O) : RuntimeState :=
  s.define_method_prim (Object.value self) name (eraseCallback cb)

/-- Singleton method definition from the source
(`Object::define_singleton_method`): delegates to the singleton-table
mutation primitive at the receiver's Handle. -/
def define_singleton_method {S I O : Type} [Object S] [Object I] [Object O]
    (s : RuntimeState) (self : S) (name : String) (cb : Callback I O) : RuntimeState :=
  s.define_singleton_method_prim (Object.value self) name (eraseCallback cb)

/-- Alias from the source (`Object::def`): delegates to `define_method`. -/
def def' {S I O : Type} [Object S] [Object I] [Object O]
    (s : RuntimeState) (self : S) (name : String) (cb : Callback I O) : RuntimeState :=
  define_method s self name cb

/-- Alias from the source (`Object::def_self`): delegates to
`define_singleton_method`. -/
def def_self {S I O : Type} [Object S] [Object I] [Object O]
    (s : RuntimeState) (self : S) (name : String) (cb : Callback I O) : RuntimeState :=
  define_singleton_method s self name cb

/-- Dynamic dispatch from the source (`Object::send`): marshal the argument
vector, invoke the dynamic call primitive on the receiver's Handle, and wrap
the result handle as a generic wrapper. -/
def send {S : Type} [Object S] (s : RuntimeState) (self : S) (method : String)
    (arguments : List AnyObject) : Option AnyObject :=
  let p := create_arguments arguments
  (s.call_method (Object.value self) method p.1 p.2).map AnyObject.mk

/-- Capability probe from the source (`Object::respond_to`): delegates to the
runtime's method-resolution primitive at the receiver's Handle. -/
def respond_to {S : Type} [Object S] (s : RuntimeState) (self : S) (method : String) : Bool :=
  s.respond_to_prim (Object.value self) method

/-- Instance-variable write from the source (`Object::instance_variable_set`):
delegates to the slot primitive with the written wrapper's Handle and wraps
the primitive's result handle as a generic wrapper. -/
def instance_variable_set {S T : Type} [Object S] [Object T] (s : RuntimeState) (self : S)
    (name : String) (v : T) : RuntimeState × AnyObject :=
  let r := s.instance_variable_set_prim (Object.value self) name (Object.value v)
  (r.1, AnyObject.mk r.2)

/-- Instance-variable read from the source (`Object::instance_variable_get`):
delegates to the slot primitive and wraps the result handle as a generic
wrapper. -/
def instance_variable_get {S : Type} [Object S] (s : RuntimeState) (self : S)
    (name : String) : AnyObject :=
  AnyObject.mk (s.instance_variable_get_prim (Object.value self) name)

/-- Modelled from the spec: an example verified wrapper (the per-builtin
wrapper implementations are outside src).  Its verification predicate is a
concrete test on the handle's runtime tag, standing in for the runtime class
check; used to exercise the theorems on concrete inputs. -/
structure Fixnum where
  value : Value
deriving DecidableEq

instance : Object Fixnum where
  fromValue := Fixnum.mk
  value := Fixnum.value
  value_fromValue := fun _ => rfl

instance : VerifiedObject Fixnum where
  is_correct_type := fun v => v % 2 == 1
  error_message := "Error converting to Fixnum"

/-- Modelled from the spec: a second example verified wrapper whose
verification predicate is disjoint from the first, used to exercise the
failing conversion path on concrete inputs. -/
structure RString where
  value : Value
deriving DecidableEq

instance : Object RString where
  fromValue := RString.mk
  value := RString.value
  value_fromValue := fun _ => rfl

instance : VerifiedObject RString where
  is_correct_type := fun v => v % 2 == 0
  error_message := "Error converting to String"

/-- Concrete host-runtime state used to exercise the stateful theorems:
every object's class is the handle 100, no methods or slots are registered,
and the absence singleton is the handle 8. -/
def testState : RuntimeState where
  classOf := fun _ => 100
  singletonClassOf := fun v => v + 1000
  instanceMethods := fun _ _ => none
  singletonMethods := fun _ _ => none
  ivars := fun _ _ => none
  nilValue := 8

/-- Concrete callback returning the fixed handle 1, used as the overwritten
registration in the witnesses. -/
def cbF : Callback AnyObject AnyObject := fun _ _ _ => AnyObject.mk 1

/-- Concrete callback returning the fixed handle 2, used as the surviving
registration in the witnesses. -/
def cbG : Callback AnyObject AnyObject := fun _ _ _ => AnyObject.mk 2

/-- C1: for every receiver object and every wrapper type implementing the
verification trait, `try_convert_to` succeeds if and only if the verification
predicate holds for the receiver's Handle, and on success the returned
wrapper's Handle equals the receiver's Handle bit-for-bit. -/
theorem try_convert_to_correct (T : Type) {S : Type} [VerifiedObject T] [Object S]
    (self : S) :
    ((∃ t : T, try_convert_to T self = Except.ok t) ↔
      VerifiedObject.is_correct_type (T := T) (Object.value self) = true) ∧
    (∀ t : T, try_convert_to T self = Except.ok t →
      Object.value t = Object.value self) := by
  cases h : VerifiedObject.is_correct_type (T := T) (Object.value self) with
  | false =>
    constructor
    · constructor
      · rintro ⟨t, ht⟩
        simp [try_convert_to, h] at ht
      · intro hh
        simp at hh
    · intro t ht
      simp [try_convert_to, h] at ht
  | true =>
    constructor
    · constructor
      · intro _
        rfl
      · intro _
        exact ⟨to' T self, by simp [try_convert_to, h]⟩
    · intro t ht
      simp [try_convert_to, h] at ht
      subst ht
      exact Object.value_fromValue _

/-- Witness for C1 at a concrete input: converting the generic view of handle 3
to the example wrapper succeeds and preserves the Handle. -/
theorem try_convert_to_correct_witness :
    (∃ t : Fixnum, try_convert_to Fixnum (AnyObject.mk 3) = Except.ok t) ∧
    (∀ t : Fixnum, try_convert_to Fixnum (AnyObject.mk 3) = Except.ok t →
      Object.value t = Object.value (AnyObject.mk 3)) :=
  ⟨(try_convert_to_correct Fixnum (AnyObject.mk 3)).1.mpr (by decide),
   (try_convert_to_correct Fixnum (AnyObject.mk 3)).2⟩

/-- C2: when the verification predicate fails, `try_convert_to` returns the
TypeError variant carrying exactly the target type's fixed error message, as
a typed result value. -/
theorem try_convert_to_type_error (T : Type) {S : Type} [VerifiedObject T] [Object S]
    (self : S)
    (h : VerifiedObject.is_correct_type (T := T) (Object.value self) = false) :
    try_convert_to T self =
      Except.error (Error.TypeError (VerifiedObject.error_message (T := T))) := by
  simp [try_convert_to, h]

/-- Witness for C2 at a concrete input: the odd-tagged handle 1 is rejected by
the string wrapper's predicate and yields its fixed TypeError message. -/
theorem try_convert_to_type_error_witness :
    VerifiedObject.is_correct_type (T := RString) (Object.value (Fixnum.mk 1)) = false ∧
    try_convert_to RString (Fixnum.mk 1) =
      Except.error (Error.TypeError "Error converting to String") :=
  ⟨by decide, try_convert_to_type_error RString (Fixnum.mk 1) (by decide)⟩

/-- C3: for a wrapper constructed normally -- so that its Handle genuinely
satisfies its type's verification predicate -- converting to the generic
wrapper and back always succeeds and preserves the Handle. -/
theorem to_any_object_round_trip (T : Type) [VerifiedObject T] (w : T)
    (h : VerifiedObject.is_correct_type (T := T) (Object.value w) = true) :
    ∃ t : T, try_convert_to T (to_any_object w) = Except.ok t ∧
      Object.value t = Object.value w := by
  refine ⟨Object.fromValue (Object.value w), ?_, Object.value_fromValue _⟩
  have hv : Object.value (to_any_object w) = Object.value w := rfl
  simp [try_convert_to, to', hv, h]

/-- Witness for C3 at a concrete input: the example wrapper over handle 3
round-trips through the generic wrapper. -/
theorem to_any_object_round_trip_witness :
    VerifiedObject.is_correct_type (T := Fixnum) (Object.value (Fixnum.mk 3)) = true ∧
    (∃ t : Fixnum, try_convert_to Fixnum (to_any_object (Fixnum.mk 3)) = Except.ok t ∧
      Object.value t = Object.value (Fixnum.mk 3)) :=
  ⟨by decide, to_any_object_round_trip Fixnum (Fixnum.mk 3) (by decide)⟩

/-- C4: the unchecked conversion builds the target wrapper from exactly the
receiver's Handle -- it is the conversion-from-Handle operation applied to the
receiver's Handle, it is total (no error result), and the produced wrapper's
Handle equals the receiver's.  Its signature requires only the capability
trait, never the verification trait, so no verification predicate exists to
be called. -/
theorem to_unchecked_reinterpretation (T : Type) {S : Type} [Object T] [Object S]
    (self : S) :
    to' T self = Object.fromValue (Object.value self) ∧
    Object.value (to' T self) = Object.value self :=
  ⟨rfl, Object.value_fromValue _⟩

/-- C5: after registering `f` and then `g` under the same name on the same
class, the method table holds exactly `g`'s dispatcher form, dynamic send on
an instance invokes `g` and never `f` (the result is determined by `g`
alone, for every `f`), and neither definition operation of this layer ever
removes an existing registration. -/
theorem define_method_last_write_wins {C S I O J P : Type}
    [Object C] [Object S] [Object I] [Object O] [Object J] [Object P]
    (s : RuntimeState) (c : C) (x : S) (m : String)
    (f : Callback I O) (g : Callback J P)
    (hclass : s.classOf (Object.value x) = Object.value c)
    (hsing : s.singletonMethods (Object.value x) m = none) :
    ((define_method (define_method s c m f) c m g).instanceMethods (Object.value c) m
        = some (eraseCallback g)) ∧
    (send (define_method (define_method s c m f) c m g) x m []
        = some (AnyObject.mk (eraseCallback g 0 [] (Object.value x)))) ∧
    (∀ (s' : RuntimeState) (a : AnyObject) (nm : String)
        (cb : Callback AnyObject AnyObject) (k : Value) (n : String),
      ((s'.instanceMethods k n).isSome →
        ((define_method s' a nm cb).instanceMethods k n).isSome) ∧
      ((s'.singletonMethods k n).isSome →
        ((define_singleton_method s' a nm cb).singletonMethods k n).isSome) ∧
      ((s'.singletonMethods k n).isSome →
        ((define_method s' a nm cb).singletonMethods k n).isSome) ∧
      ((s'.instanceMethods k n).isSome →
        ((define_singleton_method s' a nm cb).instanceMethods k n).isSome)) := by
  refine ⟨?_, ?_, ?_⟩
  · simp [define_method, RuntimeState.define_method_prim]
  · simp [send, create_arguments, RuntimeState.call_method, define_method,
          RuntimeState.define_method_prim, hclass, hsing]
  · intro s' a nm cb k n
    refine ⟨?_, ?_, ?_, ?_⟩
    · intro hsome
      simp only [define_method, RuntimeState.define_method_prim]
      by_cases hk : k = Object.value a ∧ n = nm
      · simp [hk]
      · simpa [hk] using hsome
    · intro hsome
      simp only [define_singleton_method, RuntimeState.define_singleton_method_prim]
      by_cases hk : k = Object.value a ∧ n = nm
      · simp [hk]
      · simpa [hk] using hsome
    · intro hsome
      simpa [define_method, RuntimeState.define_method_prim] using hsome
    · intro hsome
      simpa [define_singleton_method, RuntimeState.define_singleton_method_prim] using hsome

/-- Witness for C5 at concrete inputs: in the test state, after defining
callbacks returning handles 1 and then 2 under the name m on the class handle
100, send on instance handle 5 yields the second callback's result. -/
theorem define_method_last_write_wins_witness :
    testState.classOf (Object.value (AnyObject.mk 5)) = Object.value (AnyObject.mk 100) ∧
    testState.singletonMethods (Object.value (AnyObject.mk 5)) "m" = none ∧
    send (define_method (define_method testState (AnyObject.mk 100) "m" cbF)
        (AnyObject.mk 100) "m" cbG) (AnyObject.mk 5) "m" []
      = some (AnyObject.mk 2) :=
  ⟨rfl, rfl,
    (define_method_last_write_wins testState (AnyObject.mk 100) (AnyObject.mk 5) "m"
      cbF cbG rfl rfl).2.1⟩

/-- C6: an object responds to a name immediately after that name is registered
on its class by `define_method`, or on its own singleton class by
`define_singleton_method`; and it does not respond to a name registered
nowhere on its resolution chain (neither its singleton methods nor its
class's instance methods). -/
theorem respond_to_after_define {C S I O : Type}
    [Object C] [Object S] [Object I] [Object O]
    (s : RuntimeState) (c : C) (x : S) (name : String) (cb : Callback I O)
    (hclass : s.classOf (Object.value x) = Object.value c) :
    (respond_to (define_method s c name cb) x name = true) ∧
    (respond_to (define_singleton_method s x name cb) x name = true) ∧
    (s.singletonMethods (Object.value x) name = none →
      s.instanceMethods (s.classOf (Object.value x)) name = none →
        respond_to s x name = false) := by
  refine ⟨?_, ?_, ?_⟩
  · simp [respond_to, RuntimeState.respond_to_prim, define_method,
          RuntimeState.define_method_prim, hclass]
  · simp [respond_to, RuntimeState.respond_to_prim, define_singleton_method,
          RuntimeState.define_singleton_method_prim]
  · intro h1 h2
    simp [respond_to, RuntimeState.respond_to_prim, h1, h2]

/-- Witness for C6 at concrete inputs: in the test state, instance handle 5
responds to the name greeting after it is defined on class handle 100 or on
its own singleton class, and does not respond to it beforehand. -/
theorem respond_to_after_define_witness :
    testState.classOf (Object.value (AnyObject.mk 5)) = Object.value (AnyObject.mk 100) ∧
    respond_to (define_method testState (AnyObject.mk 100) "greeting" cbF)
        (AnyObject.mk 5) "greeting" = true ∧
    respond_to (define_singleton_method testState (AnyObject.mk 5) "greeting" cbF)
        (AnyObject.mk 5) "greeting" = true ∧
    respond_to testState (AnyObject.mk 5) "greeting" = false :=
  ⟨rfl,
   (respond_to_after_define testState (AnyObject.mk 100) (AnyObject.mk 5)
      "greeting" cbF rfl).1,
   (respond_to_after_define testState (AnyObject.mk 100) (AnyObject.mk 5)
      "greeting" cbF rfl).2.1,
   (respond_to_after_define testState (AnyObject.mk 100) (AnyObject.mk 5)
      "greeting" cbF rfl).2.2 rfl rfl⟩

/-- C7: setting an instance variable and immediately reading it back, on any
object, any slot name and any wrapper value, returns a generic wrapper whose
Handle equals the written value's Handle. -/
theorem instance_variable_set_get {S T : Type} [Object S] [Object T]
    (s : RuntimeState) (x : S) (k : String) (v : T) :
    AnyObject.value (instance_variable_get (instance_variable_set s x k v).1 x k)
      = Object.value v := by
  simp [instance_variable_get, instance_variable_set,
        RuntimeState.instance_variable_get_prim, RuntimeState.instance_variable_set_prim]

/-- C8: a registrable callback has the fixed dispatcher signature -- argument
count, contiguous array of generic-wrapper argument handles, receiver --
returning one typed wrapper.  Both definition operations (whose receiver
argument and return types are constrained to the capability trait) store the
callback in exactly that uniform shape, and under that shape the result
handle is always extracted from the returned typed wrapper while the
receiver wrapper is always constructed from the receiver handle. -/
theorem callback_contract {S I O : Type} [Object S] [Object I] [Object O]
    (s : RuntimeState) (self : S) (name : String) (cb : Callback I O) :
    ((define_method s self name cb).instanceMethods (Object.value self) name
        = some (eraseCallback cb)) ∧
    ((define_singleton_method s self name cb).singletonMethods (Object.value self) name
        = some (eraseCallback cb)) ∧
    (∀ (argc : Nat) (argv : List Value) (recv : Value),
      eraseCallback cb argc argv recv
        = Object.value (cb argc (argv.map AnyObject.mk) (Object.fromValue recv))) := by
  refine ⟨?_, ?_, fun _ _ _ => rfl⟩
  · simp [define_method, RuntimeState.define_method_prim]
  · simp [define_singleton_method, RuntimeState.define_singleton_method_prim]

/-- C9: conversion to the generic wrapper yields an AnyObject holding exactly
the receiver's Handle -- it is the generic constructor applied to the
receiver's Handle, total and non-failing, and the held Handle equals the
receiver's. -/
theorem to_any_object_same_handle {S : Type} [Object S] (self : S) :
    to_any_object self = AnyObject.mk (Object.value self) ∧
    AnyObject.value (to_any_object self) = Object.value self :=
  ⟨rfl, rfl⟩

/-- C10: the aliases agree with their targets on every receiver, name and
callback: `def` performs exactly the operation of `define_method`, and
`def_self` performs exactly the operation of `define_singleton_method`. -/
theorem def_aliases {S I O : Type} [Object S] [Object I] [Object O]
    (s : RuntimeState) (self : S) (name : String) (cb : Callback I O) :
    def' s self name cb = define_method s self name cb ∧
    def_self s self name cb = define_singleton_method s self name cb :=
  ⟨rfl, rfl⟩

end Ruru
